import Mathlib

/-!
# Verification of the hoard configuration loader and list-search renderer

Shallow embedding of `src/config.rs` and `src/gui/list_search/render.rs`
from the `hoard` command-snippet manager, together with proofs about the
configuration-load pipeline and the render step.

Rust `Option<T>` becomes `Option T`, `PathBuf` becomes `String`,
`(u8,u8,u8)` becomes `Nat × Nat × Nat` (no arithmetic is performed on the
components, so no overflow is possible).  Fallible I/O (file writes, YAML
serialization) is modelled by boolean outcome parameters, and a Rust
`panic!`/`assert!`/`expect` abort is modelled by the `RustOutcome.panicked`
constructor.
-/

namespace Hoard

/-- Outcome of running a piece of Rust code that may `panic!`/`assert!`:
either a normal return value or an abort with a reason. -/
inductive PanicReason where
  /-- the write expectation `fs::write(..).expect("Unable to write config file")`
  failed (config.rs line 294). -/
  | writeFailed
  /-- the unwrap `loaded_config.read_from_current_directory.unwrap()` hit `None`
  (config.rs line 134). -/
  | flagMissing
  /-- the assertion `assert!(parameter_token != parameter_ending_token, ..)` fired
  (config.rs line 138). -/
  | delimiterCollision
  /-- the lookup `app_state.namespace_tab.selected().expect("Always a namespace selected")`
  hit `None` (render.rs line 58). -/
  | noNamespaceSelected
  /-- the lookup `app.command_list.selected().expect("there is always a selected command")`
  hit `None` (render.rs line 273). -/
  | noCommandSelected
  /-- a colour unwrap `config.<color>.unwrap()` hit `None` in the renderer. -/
  | colorMissing
  deriving DecidableEq, Repr

/-- Result of a Rust computation: a normal value or a panic (process abort). -/
inductive RustOutcome (α : Type) where
  | panicked (reason : PanicReason)
  | returned (value : α)
  deriving DecidableEq, Repr

/-- Errors surfaced through `anyhow::Error` / `Result` on the paths we model;
the only `Err` the modelled code can produce itself is a YAML
serialization failure inside `save_config`. -/
inductive ConfigError where
  | yamlError
  deriving DecidableEq, Repr

/-- Constant `CARGO_PKG_VERSION`; the concrete value comes from Cargo metadata that is
not part of the two source files and is irrelevant to every claim. -/
def VERSION : String := "hoard-version"

/-- Constant `DEFAULT_HOARD_FILE` (config.rs line 12). -/
def DEFAULT_HOARD_FILE : String := "trove.yml"

/-- Constant `DEFAULT_HOARD_CONFIG_FILE` (config.rs line 13). -/
def DEFAULT_HOARD_CONFIG_FILE : String := "config.yml"

/-- The `HoardConfig` struct (config.rs lines 17-37).  `query_pfx` embeds the
Rust field `query_` + `pfx`-spelled-out (a prompt string rendered before the
query); paths are strings. -/
structure HoardConfig where
  version : String
  default_namespace : String
  trove_path : Option String
  query_pfx : String
  primary_color : Option (Nat × Nat × Nat)
  secondary_color : Option (Nat × Nat × Nat)
  tertiary_color : Option (Nat × Nat × Nat)
  command_color : Option (Nat × Nat × Nat)
  parameter_token : Option String
  parameter_ending_token : Option String
  read_from_current_directory : Option Bool
  sync_server_url : Option String
  api_token : Option String
  gpt_api_key : Option String
  deriving DecidableEq, Repr

namespace HoardConfig

/-- Rust `HoardConfig::default_parameter_token` (config.rs lines 68-70). -/
def default_parameter_token : String := "#"

/-- Rust `HoardConfig::default_ending_parameter_token` (config.rs lines 72-74). -/
def default_ending_parameter_token : String := "!"

/-- Rust `HoardConfig::default_sync_server_url` (config.rs lines 76-78). -/
def default_sync_server_url : String := "https://troveserver.herokuapp.com/"

/-- Rust `HoardConfig::default_read_from_current_directory` (config.rs lines 80-82). -/
def default_read_from_current_directory : Bool := true

/-- Rust `HoardConfig::default_colors` (config.rs lines 84-91). -/
def default_colors (color_level : Nat) : Nat × Nat × Nat :=
  match color_level with
  | 0 => (242, 229, 188)
  | 1 => (181, 118, 20)
  | 2 => (50, 48, 47)
  | _ => (180, 118, 20)

/-- Rust `impl Default for HoardConfig` (config.rs lines 39-58). -/
def default : HoardConfig where
  version := VERSION
  default_namespace := "default"
  trove_path := none
  query_pfx := "  >"
  primary_color := some (default_colors 0)
  secondary_color := some (default_colors 1)
  tertiary_color := some (default_colors 2)
  command_color := some (default_colors 3)
  parameter_token := some default_parameter_token
  parameter_ending_token := some default_ending_parameter_token
  read_from_current_directory := some default_read_from_current_directory
  sync_server_url := some default_sync_server_url
  api_token := none
  gpt_api_key := none

/-- Rust `HoardConfig::new` (config.rs lines 61-66): default with `trove_path`
set to `hoard_home_path.join(DEFAULT_HOARD_FILE)`. -/
def new (hoard_home_path : String) : HoardConfig :=
  { default with trove_path := some (hoard_home_path ++ "/" ++ DEFAULT_HOARD_FILE) }

end HoardConfig

/-- Rust `append_missing_default_values_to_config` (config.rs lines 201-244), pure
part: the updated config together with the `is_config_dirty` flag that decides
whether the config file is rewritten.  The source is a single
`if/else-if` chain, so at most the first missing field is filled. -/
def append_missing_default_values_to_config
    (loaded_config : HoardConfig) (hoard_dir : String) : HoardConfig × Bool :=
  if loaded_config.primary_color = none then
    ({ loaded_config with primary_color := some (HoardConfig.default_colors 0) }, true)
  else if loaded_config.secondary_color = none then
    ({ loaded_config with secondary_color := some (HoardConfig.default_colors 1) }, true)
  else if loaded_config.tertiary_color = none then
    ({ loaded_config with tertiary_color := some (HoardConfig.default_colors 2) }, true)
  else if loaded_config.command_color = none then
    ({ loaded_config with command_color := some (HoardConfig.default_colors 3) }, true)
  else if loaded_config.trove_path = none then
    ({ loaded_config with trove_path := some (hoard_dir ++ "/" ++ DEFAULT_HOARD_FILE) }, true)
  else if loaded_config.parameter_token = none then
    ({ loaded_config with parameter_token := some HoardConfig.default_parameter_token }, true)
  else if loaded_config.parameter_ending_token = none then
    ({ loaded_config with
        parameter_ending_token := some HoardConfig.default_ending_parameter_token }, true)
  else if loaded_config.read_from_current_directory = none then
    ({ loaded_config with read_from_current_directory := some false }, true)
  else if loaded_config.sync_server_url = none then
    ({ loaded_config with sync_server_url := some HoardConfig.default_sync_server_url }, true)
  else
    (loaded_config, false)

/-- Rust `save_config` (config.rs lines 292-296).  `serOk` models whether
`serde_yaml::to_string` succeeds (its failure propagates as `Err`);
`writeOk` models whether `fs::write` succeeds — its failure hits the
`.expect("Unable to write config file")` and aborts the process. -/
def save_config (serOk writeOk : Bool) : RustOutcome (Except ConfigError Unit) :=
  if serOk then
    if writeOk then .returned (.ok ()) else .panicked .writeFailed
  else
    .returned (.error .yamlError)

/-- The `hoard_config_path.exists()` branch of `load_or_build_config`
(config.rs lines 122-146): repair missing fields (saving the file when
dirty), prefer a local `trove.yml` when `read_from_current_directory`
is true, assert the two parameter tokens differ, then shell-expand the
trove path.  `expand` models `shellexpand::full` composed with `.ok()`
(an external crate: tilde/env expansion of a path string), and
`localTroveExists` models `Path::new("trove.yml").exists()`. -/
def load_existing_config (expand : String → Option String) (serOk writeOk : Bool)
    (loaded : HoardConfig) (hoard_dir : String) (localTroveExists : Bool) :
    RustOutcome (Except ConfigError HoardConfig) :=
  let (cfg, dirty) := append_missing_default_values_to_config loaded hoard_dir
  match (if dirty then save_config serOk writeOk else .returned (.ok ())) with
  | .panicked r => .panicked r
  | .returned (.error e) => .returned (.error e)
  | .returned (.ok _) =>
    match cfg.read_from_current_directory with
    | none => .panicked .flagMissing
    | some flag =>
      let cfg := if flag && localTroveExists
        then { cfg with trove_path := some DEFAULT_HOARD_FILE } else cfg
      if cfg.parameter_token = cfg.parameter_ending_token then
        .panicked .delimiterCollision
      else
        .returned (.ok { cfg with trove_path := cfg.trove_path.bind expand })

/-- Rust `save_parameter_token` (config.rs lines 246-265): clone the config,
set `parameter_token`, save to `config_path/config.yml`.  The result
carries the config handed to `save_config` and the path, plus the
returned boolean; a failing `fs::write` panics inside `save_config`. -/
def save_parameter_token (config : HoardConfig) (config_path parameter_tok : String)
    (serOk writeOk : Bool) : RustOutcome (HoardConfig × String × Bool) :=
  let new_config := { config with parameter_token := some parameter_tok }
  let path_buf := config_path ++ "/" ++ DEFAULT_HOARD_CONFIG_FILE
  match save_config serOk writeOk with
  | .panicked r => .panicked r
  | .returned (.ok _) => .returned (new_config, path_buf, true)
  | .returned (.error _) => .returned (new_config, path_buf, false)

/-! ## The list-search renderer (`src/gui/list_search/render.rs`)

The renderer reads a `State` (declared in `gui/commands_gui.rs`, which is not
among the sources; its fields are reconstructed from every use in
`render.rs` and from the spec's `SessionState`) and a `HoardCmd`
(declared in `core`, reconstructed from its uses and the spec's
`CommandEntry`).  `ratatui` widgets are external; we record the text
contents the renderer puts into them, plus the one state mutation the
renderer performs (`app.command_list.select(..)`, render.rs line 286). -/

/-- Modelled from the spec: `CommandEntry` — a stored command with `name`,
`namespace`, command template, `tags` and `description`.  `render.rs` uses
fields `name`, `command`, `description` and method `get_tags_as_string`.
The Rust struct's declaration (in `core`) is not among the sources;
`Default` gives empty strings and an empty tag list. -/
structure HoardCmd where
  name : String
  namespace_field : String
  command : String
  tags : List String
  description : String
  deriving DecidableEq, Repr

namespace HoardCmd

/-- Rust `HoardCmd::default()`: every field empty. -/
def default : HoardCmd := ⟨"", "", "", [], ""⟩

/-- Modelled from the spec: the tag field is displayed as a single
delimiter-joined string (`get_tags_as_string`, declared in `core`,
not among the sources). -/
def tag_join_sep : String := ","

/-- Joined tag display, continued. -/
def get_tags_as_string (c : HoardCmd) : String := String.intercalate tag_join_sep c.tags

end HoardCmd

/-- Rust `ControlState` (declared in `gui/commands_gui.rs`; the four variants are
the ones matched in render.rs lines 219-227, 231-239, 380-384). -/
inductive ControlState where
  | Search
  | Edit
  | Gpt
  | KeyNotSet
  deriving DecidableEq, Repr

/-- Rust `EditSelection` (declared in `gui/commands_gui.rs`; variants used in
render.rs: `Name`, `Command`, `Tags`, `Description`). -/
inductive EditSelection where
  | Name
  | Command
  | Tags
  | Description
  deriving DecidableEq, Repr

/-- The session `State` (declared in `gui/commands_gui.rs`, reconstructed from
its uses in render.rs and the spec's `SessionState`).  `command_list` and
`namespace_tab` are ratatui `ListState`/selection holders; only their
`selected()` value matters to the renderer, so they are `Option Nat`. -/
structure State where
  control : ControlState
  edit_selection : EditSelection
  input : String
  string_to_edit : String
  commands : List HoardCmd
  command_list : Option Nat
  namespace_tab : Option Nat
  query_gpt : Bool
  openai_key_set : Bool
  deriving DecidableEq, Repr

namespace State

/-- Modelled from the spec: the default generation-prompt popup message
(`State::get_default_popupmsg`, declared in `gui/commands_gui.rs`, not among
the sources; its exact wording is irrelevant, only that it differs from the
no-API-key message). -/
def get_default_popupmsg : String :=
  "Ask GPT to generate a command"

/-- Modelled from the spec: the informational message shown when no OpenAI
API key is configured (`State::get_no_api_key_popupmsg`, declared in
`gui/commands_gui.rs`, not among the sources). -/
def get_no_api_key_popupmsg : String :=
  "No OpenAI API key configured"

end State

/-- Rust `coerce_string_by_mode` (render.rs lines 230-240): in `Edit` mode the
currently selected edit field displays the working buffer
`app.string_to_edit`; every other field, and every field in the other
modes, displays the committed string `s`. -/
def coerce_string_by_mode (s : String) (app : State) (command_render : EditSelection) :
    String :=
  match app.control with
  | .Search | .Gpt | .KeyNotSet => s
  | .Edit =>
    if command_render = app.edit_selection then app.string_to_edit else s

/-- Rust `get_footer_constraints` (render.rs lines 380-385). -/
def get_footer_constraints (control : ControlState) : Nat × Nat :=
  match control with
  | .Search | .Gpt | .KeyNotSet => (50, 50)
  | .Edit => (99, 1)

/-- The text content of one rendered frame: the data `draw` hands to the
terminal widgets (styling, layout rectangles and colors are external
`ratatui` concerns). -/
structure Frame where
  tabNames : List String
  listNames : List String
  commandText : String
  tagsText : String
  descriptionText : String
  queryText : String
  footer : Nat × Nat
  gptPopup : Option String
  deriving DecidableEq, Repr

/-- Rust `render_commands` (render.rs lines 243-378): builds the list of command
names, looks up the selected command (`HoardCmd::default()` when the index
is out of bounds), re-points the selection at the last element when the
selected command's name is empty (lines 279-287), and produces the four
text widgets.  The colour lookups `config.secondary_color.unwrap()` /
`tertiary_color.unwrap()` (via `get_color` and the highlight style) and the
`expect` on `app.command_list.selected()` are the panic points. -/
def render_commands (commands_list : List HoardCmd) (app : State) (config : HoardConfig) :
    RustOutcome (List String × String × String × String × String × State) :=
  if config.secondary_color = none ∨ config.primary_color = none then
    .panicked .colorMissing
  else
    let items := commands_list.map (·.name)
    match app.command_list with
    | none => .panicked .noCommandSelected
    | some idx =>
      let selected_command := (commands_list.get? idx).getD HoardCmd.default
      let new_selection := if commands_list.isEmpty then 0 else commands_list.length - 1
      let app :=
        if selected_command.name = "" then
          { app with command_list := some new_selection }
        else app
      if config.tertiary_color = none then .panicked .colorMissing
      else
        let command := coerce_string_by_mode selected_command.command app .Command
        let tags := coerce_string_by_mode selected_command.get_tags_as_string app .Tags
        let description := coerce_string_by_mode selected_command.description app .Description
        let query_string := config.query_pfx ++ app.input
        .returned (items, command, tags, description, query_string, app)

/-- Rust `draw` (render.rs lines 17-175), as its observable effect: the frame's
text content plus the session state after the call (`render_commands`
mutates `app_state.command_list` through `&mut State`; the commands list it
receives is a clone taken before the call, render.rs line 100).  The
`expect` on the namespace selection (line 58) and the colour unwraps are
the panic points; the GPT popup (lines 144-172) shows the no-API-key
message exactly when `openai_key_set` is false. -/
def draw (app_state : State) (config : HoardConfig) (namespace_tabs : List String) :
    RustOutcome (Frame × State) :=
  if config.primary_color = none then .panicked .colorMissing
  else
    match app_state.namespace_tab with
    | none => .panicked .noNamespaceSelected
    | some _ =>
      match render_commands app_state.commands app_state config with
      | .panicked r => .panicked r
      | .returned (items, command, tags, description, query_string, app') =>
        let gptPopup :=
          if app_state.query_gpt then
            some (if app_state.openai_key_set then State.get_default_popupmsg
                  else State.get_no_api_key_popupmsg)
          else none
        .returned
          ({ tabNames := namespace_tabs
             listNames := items
             commandText := command
             tagsText := tags
             descriptionText := description
             queryText := query_string
             footer := get_footer_constraints app_state.control
             gptPopup := gptPopup }, app')

/-! ## Helper definitions for stating the claims -/

/-- Projection: the `trove_path` of a successfully loaded configuration. -/
def ok_trove_path : RustOutcome (Except ConfigError HoardConfig) → Option (Option String)
  | .returned (.ok c) => some c.trove_path
  | .returned (.error _) => none
  | .panicked _ => none

/-- Projection: the boolean returned by `save_parameter_token`, when the call
returned at all. -/
def returned_flag : RustOutcome (HoardConfig × String × Bool) → Option Bool
  | .returned (_, _, b) => some b
  | .panicked _ => none

/-- Projection: whether a Rust computation returned normally. -/
def is_returned : RustOutcome α → Bool
  | .returned _ => true
  | .panicked _ => false

/-- Projection: the session state after a call to `draw`, when it returned. -/
def state_after_draw (app : State) (config : HoardConfig) (tabs : List String) :
    Option State :=
  match draw app config tabs with
  | .returned (_, s) => some s
  | .panicked _ => none

/-- A selection is valid for a command list when it is `some` index in
bounds, or `some 0` for an empty list. -/
def selection_valid (sel : Option Nat) (cmds : List HoardCmd) : Prop :=
  match sel with
  | some j => j < cmds.length ∨ (cmds.length = 0 ∧ j = 0)
  | none => False

/-- Number of `None` fields among the nine fields the repair pass
(config.rs lines 201-244) looks at. -/
def missing_count (c : HoardConfig) : Nat :=
  (if c.primary_color = none then 1 else 0) +
  (if c.secondary_color = none then 1 else 0) +
  (if c.tertiary_color = none then 1 else 0) +
  (if c.command_color = none then 1 else 0) +
  (if c.trove_path = none then 1 else 0) +
  (if c.parameter_token = none then 1 else 0) +
  (if c.parameter_ending_token = none then 1 else 0) +
  (if c.read_from_current_directory = none then 1 else 0) +
  (if c.sync_server_url = none then 1 else 0)

/-! ## Helper lemmas about the repair pass -/

theorem append_keeps_parameter_token (cfg : HoardConfig) (dir : String) (t : String)
    (h : cfg.parameter_token = some t) :
    (append_missing_default_values_to_config cfg dir).1.parameter_token = some t := by
  unfold append_missing_default_values_to_config
  split_ifs <;> simp_all

theorem append_keeps_ending_token (cfg : HoardConfig) (dir : String) (t : String)
    (h : cfg.parameter_ending_token = some t) :
    (append_missing_default_values_to_config cfg dir).1.parameter_ending_token = some t := by
  unfold append_missing_default_values_to_config
  split_ifs <;> simp_all

theorem append_keeps_flag (cfg : HoardConfig) (dir : String) (b : Bool)
    (h : cfg.read_from_current_directory = some b) :
    (append_missing_default_values_to_config cfg dir).1.read_from_current_directory
      = some b := by
  unfold append_missing_default_values_to_config
  split_ifs <;> simp_all

theorem append_keeps_trove_path (cfg : HoardConfig) (dir : String) (p : String)
    (h : cfg.trove_path = some p) :
    (append_missing_default_values_to_config cfg dir).1.trove_path = some p := by
  unfold append_missing_default_values_to_config
  split_ifs <;> simp_all

/-- Evaluation shape of the successful-save path of `load_existing_config`:
with serialization and writing succeeding, the load reduces to the
local-override step, the delimiter assertion, and the shell expansion. -/
theorem load_existing_config_eval (expand : String → Option String)
    (cfg : HoardConfig) (dir : String) (localEx : Bool) (b : Bool)
    (hflag : (append_missing_default_values_to_config cfg dir).1.read_from_current_directory
      = some b) :
    load_existing_config expand true true cfg dir localEx =
      (let c0 := (append_missing_default_values_to_config cfg dir).1
       let c1 := if b && localEx
         then { c0 with trove_path := some DEFAULT_HOARD_FILE } else c0
       if c1.parameter_token = c1.parameter_ending_token then
         .panicked .delimiterCollision
       else
         .returned (.ok { c1 with trove_path := c1.trove_path.bind expand })) := by
  unfold load_existing_config
  simp only [save_config, if_true, ite_self]
  rw [hflag]

/-! ## Claims -/

/-- C7: a freshly built default configuration has parameter start token `#`
and parameter ending token `!`. -/
theorem default_delimiters_are_hash_and_bang :
    HoardConfig.default.parameter_token = some "#" ∧
    HoardConfig.default.parameter_ending_token = some "!" :=
  ⟨rfl, rfl⟩

/-- C1: when the configured parameter start token and parameter ending token
are both present and non-empty and are equal, configuration load fails with
the delimiter-collision abort (the `assert!` at config.rs line 138), so the
session never starts.  The check sits in `load_or_build_config`, hence it
runs once per configuration load. -/
theorem load_aborts_on_delimiter_collision (expand : String → Option String)
    (cfg : HoardConfig) (dir : String) (localEx : Bool) (t : String) (b : Bool)
    (hstart : cfg.parameter_token = some t)
    (hend : cfg.parameter_ending_token = some t)
    (hnonempty : t ≠ "")
    (hflag : cfg.read_from_current_directory = some b) :
    load_existing_config expand true true cfg dir localEx
      = .panicked .delimiterCollision := by
  have hf := append_keeps_flag cfg dir b hflag
  have hp := append_keeps_parameter_token cfg dir t hstart
  have he := append_keeps_ending_token cfg dir t hend
  rw [load_existing_config_eval expand cfg dir localEx b hf]
  cases hbe : (b && localEx) <;> simp [hp, he]

/-- Concrete instance for the delimiter collision: a config whose
two tokens are both `#`. -/
def cfg_collision : HoardConfig :=
  { HoardConfig.default with parameter_ending_token := some HoardConfig.default_parameter_token }

/-- Directory string used in concrete instances. -/
def dir_w : String := "/home/user/.config/hoard"

/-- Identity expansion used in concrete instances (no tilde or variable to
expand). -/
def expand_id : String → Option String := fun s => some s

/-- Witness for C1: the default config with ending token overridden to `#`
aborts with the delimiter collision. -/
theorem load_aborts_on_delimiter_collision_witness :
    load_existing_config expand_id true true cfg_collision dir_w true
      = .panicked .delimiterCollision :=
  load_aborts_on_delimiter_collision expand_id cfg_collision dir_w true
    HoardConfig.default_parameter_token true rfl rfl (by decide) rfl

/-- C6: loading an existing configuration whose `read_from_current_directory`
flag is present and `true` while a local `trove.yml` exists sets the loaded
`trove_path` to the local file; when the flag is `false`, or the local file
does not exist, the configured trove path is kept. -/
theorem local_trove_override (expand : String → Option String)
    (cfg : HoardConfig) (dir : String) (t e : String)
    (hstart : cfg.parameter_token = some t)
    (hend : cfg.parameter_ending_token = some e)
    (hne : t ≠ e) :
    (cfg.read_from_current_directory = some true →
      expand DEFAULT_HOARD_FILE = some DEFAULT_HOARD_FILE →
      ok_trove_path (load_existing_config expand true true cfg dir true)
        = some (some DEFAULT_HOARD_FILE)) ∧
    (∀ p localEx, cfg.read_from_current_directory = some false →
      cfg.trove_path = some p → expand p = some p →
      ok_trove_path (load_existing_config expand true true cfg dir localEx)
        = some (some p)) ∧
    (∀ p, cfg.read_from_current_directory = some true →
      cfg.trove_path = some p → expand p = some p →
      ok_trove_path (load_existing_config expand true true cfg dir false)
        = some (some p)) := by
  have hp := append_keeps_parameter_token cfg dir t hstart
  have he := append_keeps_ending_token cfg dir e hend
  refine ⟨?_, ?_, ?_⟩
  · intro hflag hexp
    have hf := append_keeps_flag cfg dir true hflag
    rw [load_existing_config_eval expand cfg dir true true hf]
    simp [hp, he, hne, ok_trove_path, hexp]
  · intro p localEx hflag htrove hexp
    have hf := append_keeps_flag cfg dir false hflag
    have ht := append_keeps_trove_path cfg dir p htrove
    rw [load_existing_config_eval expand cfg dir localEx false hf]
    simp [hp, he, hne, ok_trove_path, ht, hexp]
  · intro p hflag htrove hexp
    have hf := append_keeps_flag cfg dir true hflag
    have ht := append_keeps_trove_path cfg dir p htrove
    rw [load_existing_config_eval expand cfg dir false true hf]
    simp [hp, he, hne, ok_trove_path, ht, hexp]

/-- Witness for C6: the default config (flag `true`, tokens `#` and `!`) with
a local `trove.yml` present loads with `trove_path` pointing at the local
file. -/
theorem local_trove_override_witness :
    ok_trove_path (load_existing_config expand_id true true HoardConfig.default dir_w true)
      = some (some DEFAULT_HOARD_FILE) :=
  (local_trove_override expand_id HoardConfig.default dir_w
    HoardConfig.default_parameter_token HoardConfig.default_ending_parameter_token
    rfl rfl (by decide)).1 rfl rfl

/-- Shape of the repair pass when the primary colour is missing. -/
theorem append_fill_primary (cfg : HoardConfig) (dir : String)
    (h1 : cfg.primary_color = none) :
    append_missing_default_values_to_config cfg dir
      = ({ cfg with primary_color := some (HoardConfig.default_colors 0) }, true) := by
  unfold append_missing_default_values_to_config
  rw [if_pos h1]

/-- Shape of the repair pass when the first missing field is the secondary
colour. -/
theorem append_fill_secondary (cfg : HoardConfig) (dir : String)
    (h1 : cfg.primary_color ≠ none) (h2 : cfg.secondary_color = none) :
    append_missing_default_values_to_config cfg dir
      = ({ cfg with secondary_color := some (HoardConfig.default_colors 1) }, true) := by
  unfold append_missing_default_values_to_config
  rw [if_neg h1, if_pos h2]

/-- Shape of the repair pass when the first missing field is the tertiary
colour. -/
theorem append_fill_tertiary (cfg : HoardConfig) (dir : String)
    (h1 : cfg.primary_color ≠ none) (h2 : cfg.secondary_color ≠ none)
    (h3 : cfg.tertiary_color = none) :
    append_missing_default_values_to_config cfg dir
      = ({ cfg with tertiary_color := some (HoardConfig.default_colors 2) }, true) := by
  unfold append_missing_default_values_to_config
  rw [if_neg h1, if_neg h2, if_pos h3]

/-- Shape of the repair pass when the first missing field is the command
colour. -/
theorem append_fill_command (cfg : HoardConfig) (dir : String)
    (h1 : cfg.primary_color ≠ none) (h2 : cfg.secondary_color ≠ none)
    (h3 : cfg.tertiary_color ≠ none) (h4 : cfg.command_color = none) :
    append_missing_default_values_to_config cfg dir
      = ({ cfg with command_color := some (HoardConfig.default_colors 3) }, true) := by
  unfold append_missing_default_values_to_config
  rw [if_neg h1, if_neg h2, if_neg h3, if_pos h4]

/-- Shape of the repair pass when the first missing field is the trove
path. -/
theorem append_fill_trove (cfg : HoardConfig) (dir : String)
    (h1 : cfg.primary_color ≠ none) (h2 : cfg.secondary_color ≠ none)
    (h3 : cfg.tertiary_color ≠ none) (h4 : cfg.command_color ≠ none)
    (h5 : cfg.trove_path = none) :
    append_missing_default_values_to_config cfg dir
      = ({ cfg with trove_path := some (dir ++ "/" ++ DEFAULT_HOARD_FILE) }, true) := by
  unfold append_missing_default_values_to_config
  rw [if_neg h1, if_neg h2, if_neg h3, if_neg h4, if_pos h5]

/-- Shape of the repair pass when the first missing field is the parameter
token. -/
theorem append_fill_parameter (cfg : HoardConfig) (dir : String)
    (h1 : cfg.primary_color ≠ none) (h2 : cfg.secondary_color ≠ none)
    (h3 : cfg.tertiary_color ≠ none) (h4 : cfg.command_color ≠ none)
    (h5 : cfg.trove_path ≠ none) (h6 : cfg.parameter_token = none) :
    append_missing_default_values_to_config cfg dir
      = ({ cfg with parameter_token := some HoardConfig.default_parameter_token }, true) := by
  unfold append_missing_default_values_to_config
  rw [if_neg h1, if_neg h2, if_neg h3, if_neg h4, if_neg h5, if_pos h6]

/-- Shape of the repair pass when the first missing field is the parameter
ending token. -/
theorem append_fill_ending (cfg : HoardConfig) (dir : String)
    (h1 : cfg.primary_color ≠ none) (h2 : cfg.secondary_color ≠ none)
    (h3 : cfg.tertiary_color ≠ none) (h4 : cfg.command_color ≠ none)
    (h5 : cfg.trove_path ≠ none) (h6 : cfg.parameter_token ≠ none)
    (h7 : cfg.parameter_ending_token = none) :
    append_missing_default_values_to_config cfg dir
      = ({ cfg with
            parameter_ending_token := some HoardConfig.default_ending_parameter_token },
         true) := by
  unfold append_missing_default_values_to_config
  rw [if_neg h1, if_neg h2, if_neg h3, if_neg h4, if_neg h5, if_neg h6, if_pos h7]

/-- Shape of the repair pass when the first missing field is the
read-from-current-directory flag (filled with `false`, not the
documented default `true`). -/
theorem append_fill_flag (cfg : HoardConfig) (dir : String)
    (h1 : cfg.primary_color ≠ none) (h2 : cfg.secondary_color ≠ none)
    (h3 : cfg.tertiary_color ≠ none) (h4 : cfg.command_color ≠ none)
    (h5 : cfg.trove_path ≠ none) (h6 : cfg.parameter_token ≠ none)
    (h7 : cfg.parameter_ending_token ≠ none)
    (h8 : cfg.read_from_current_directory = none) :
    append_missing_default_values_to_config cfg dir
      = ({ cfg with read_from_current_directory := some false }, true) := by
  unfold append_missing_default_values_to_config
  rw [if_neg h1, if_neg h2, if_neg h3, if_neg h4, if_neg h5, if_neg h6, if_neg h7,
    if_pos h8]

/-- Shape of the repair pass when the first missing field is the sync server
URL. -/
theorem append_fill_sync (cfg : HoardConfig) (dir : String)
    (h1 : cfg.primary_color ≠ none) (h2 : cfg.secondary_color ≠ none)
    (h3 : cfg.tertiary_color ≠ none) (h4 : cfg.command_color ≠ none)
    (h5 : cfg.trove_path ≠ none) (h6 : cfg.parameter_token ≠ none)
    (h7 : cfg.parameter_ending_token ≠ none)
    (h8 : cfg.read_from_current_directory ≠ none)
    (h9 : cfg.sync_server_url = none) :
    append_missing_default_values_to_config cfg dir
      = ({ cfg with sync_server_url := some HoardConfig.default_sync_server_url }, true) := by
  unfold append_missing_default_values_to_config
  rw [if_neg h1, if_neg h2, if_neg h3, if_neg h4, if_neg h5, if_neg h6, if_neg h7,
    if_neg h8, if_pos h9]

/-- Shape of the repair pass when no inspected field is missing: the
configuration is returned unchanged and is not dirty. -/
theorem append_no_missing (cfg : HoardConfig) (dir : String)
    (h1 : cfg.primary_color ≠ none) (h2 : cfg.secondary_color ≠ none)
    (h3 : cfg.tertiary_color ≠ none) (h4 : cfg.command_color ≠ none)
    (h5 : cfg.trove_path ≠ none) (h6 : cfg.parameter_token ≠ none)
    (h7 : cfg.parameter_ending_token ≠ none)
    (h8 : cfg.read_from_current_directory ≠ none)
    (h9 : cfg.sync_server_url ≠ none) :
    append_missing_default_values_to_config cfg dir = (cfg, false) := by
  unfold append_missing_default_values_to_config
  rw [if_neg h1, if_neg h2, if_neg h3, if_neg h4, if_neg h5, if_neg h6, if_neg h7,
    if_neg h8, if_neg h9]

/-- Helper: the dirty flag of the repair pass is set exactly when one of the
nine inspected fields is missing, and the pass lowers the number of missing
fields by exactly one in that case. -/
theorem append_dirty_and_count (cfg : HoardConfig) (dir : String) :
    ((append_missing_default_values_to_config cfg dir).2 = true ↔
      missing_count cfg ≠ 0) ∧
    ((append_missing_default_values_to_config cfg dir).2 = false →
      (append_missing_default_values_to_config cfg dir).1 = cfg) ∧
    (missing_count (append_missing_default_values_to_config cfg dir).1
      = missing_count cfg
        - (if (append_missing_default_values_to_config cfg dir).2 = true
           then 1 else 0)) := by
  by_cases h1 : cfg.primary_color = none
  · rw [append_fill_primary cfg dir h1]
    refine ⟨⟨fun _ => ?_, fun _ => rfl⟩, fun h => by simp at h, ?_⟩ <;>
      simp [missing_count, h1] <;> omega
  · by_cases h2 : cfg.secondary_color = none
    · rw [append_fill_secondary cfg dir h1 h2]
      refine ⟨⟨fun _ => ?_, fun _ => rfl⟩, fun h => by simp at h, ?_⟩ <;>
        simp [missing_count, h1, h2] <;> omega
    · by_cases h3 : cfg.tertiary_color = none
      · rw [append_fill_tertiary cfg dir h1 h2 h3]
        refine ⟨⟨fun _ => ?_, fun _ => rfl⟩, fun h => by simp at h, ?_⟩ <;>
          simp [missing_count, h1, h2, h3] <;> omega
      · by_cases h4 : cfg.command_color = none
        · rw [append_fill_command cfg dir h1 h2 h3 h4]
          refine ⟨⟨fun _ => ?_, fun _ => rfl⟩, fun h => by simp at h, ?_⟩ <;>
            simp [missing_count, h1, h2, h3, h4] <;> omega
        · by_cases h5 : cfg.trove_path = none
          · rw [append_fill_trove cfg dir h1 h2 h3 h4 h5]
            refine ⟨⟨fun _ => ?_, fun _ => rfl⟩, fun h => by simp at h, ?_⟩ <;>
              simp [missing_count, h1, h2, h3, h4, h5] <;> omega
          · by_cases h6 : cfg.parameter_token = none
            · rw [append_fill_parameter cfg dir h1 h2 h3 h4 h5 h6]
              refine ⟨⟨fun _ => ?_, fun _ => rfl⟩, fun h => by simp at h, ?_⟩ <;>
                simp [missing_count, h1, h2, h3, h4, h5, h6] <;> omega
            · by_cases h7 : cfg.parameter_ending_token = none
              · rw [append_fill_ending cfg dir h1 h2 h3 h4 h5 h6 h7]
                refine ⟨⟨fun _ => ?_, fun _ => rfl⟩, fun h => by simp at h, ?_⟩ <;>
                  simp [missing_count, h1, h2, h3, h4, h5, h6, h7] <;> omega
              · by_cases h8 : cfg.read_from_current_directory = none
                · rw [append_fill_flag cfg dir h1 h2 h3 h4 h5 h6 h7 h8]
                  refine ⟨⟨fun _ => ?_, fun _ => rfl⟩, fun h => by simp at h, ?_⟩ <;>
                    simp [missing_count, h1, h2, h3, h4, h5, h6, h7, h8] <;> omega
                · by_cases h9 : cfg.sync_server_url = none
                  · rw [append_fill_sync cfg dir h1 h2 h3 h4 h5 h6 h7 h8 h9]
                    refine ⟨⟨fun _ => ?_, fun _ => rfl⟩, fun h => by simp at h, ?_⟩ <;>
                      simp [missing_count, h1, h2, h3, h4, h5, h6, h7, h8, h9] <;> omega
                  · rw [append_no_missing cfg dir h1 h2 h3 h4 h5 h6 h7 h8 h9]
                    have hzero : missing_count cfg = 0 := by
                      simp [missing_count, h1, h2, h3, h4, h5, h6, h7, h8, h9]
                    refine ⟨⟨fun h => by simp at h, fun h => absurd hzero h⟩,
                      fun _ => rfl, ?_⟩
                    simp [hzero]

/-- C9: one invocation of the missing-default repair pass fills exactly the
first missing field in the priority order primary, secondary, tertiary,
command colour, trove path, parameter token, parameter ending token,
read-from-current-directory, sync server URL — and reports the
configuration dirty (to be rewritten) exactly when some of those nine
fields was missing; a configuration missing two or more fields still has a
missing field after the pass. -/
theorem repair_fills_first_missing_field_only (cfg : HoardConfig) (dir : String) :
    ((append_missing_default_values_to_config cfg dir).2 = true ↔
      missing_count cfg ≠ 0) ∧
    ((append_missing_default_values_to_config cfg dir).2 = false →
      (append_missing_default_values_to_config cfg dir).1 = cfg) ∧
    (cfg.primary_color = none →
      (append_missing_default_values_to_config cfg dir).1
        = { cfg with primary_color := some (HoardConfig.default_colors 0) }) ∧
    (cfg.primary_color ≠ none → cfg.secondary_color = none →
      (append_missing_default_values_to_config cfg dir).1
        = { cfg with secondary_color := some (HoardConfig.default_colors 1) }) ∧
    (cfg.primary_color ≠ none → cfg.secondary_color ≠ none →
      cfg.tertiary_color = none →
      (append_missing_default_values_to_config cfg dir).1
        = { cfg with tertiary_color := some (HoardConfig.default_colors 2) }) ∧
    (cfg.primary_color ≠ none → cfg.secondary_color ≠ none →
      cfg.tertiary_color ≠ none → cfg.command_color = none →
      (append_missing_default_values_to_config cfg dir).1
        = { cfg with command_color := some (HoardConfig.default_colors 3) }) ∧
    (cfg.primary_color ≠ none → cfg.secondary_color ≠ none →
      cfg.tertiary_color ≠ none → cfg.command_color ≠ none →
      cfg.trove_path = none →
      (append_missing_default_values_to_config cfg dir).1
        = { cfg with trove_path := some (dir ++ "/" ++ DEFAULT_HOARD_FILE) }) ∧
    (cfg.primary_color ≠ none → cfg.secondary_color ≠ none →
      cfg.tertiary_color ≠ none → cfg.command_color ≠ none →
      cfg.trove_path ≠ none → cfg.parameter_token = none →
      (append_missing_default_values_to_config cfg dir).1
        = { cfg with parameter_token := some HoardConfig.default_parameter_token }) ∧
    (cfg.primary_color ≠ none → cfg.secondary_color ≠ none →
      cfg.tertiary_color ≠ none → cfg.command_color ≠ none →
      cfg.trove_path ≠ none → cfg.parameter_token ≠ none →
      cfg.parameter_ending_token = none →
      (append_missing_default_values_to_config cfg dir).1
        = { cfg with
            parameter_ending_token := some HoardConfig.default_ending_parameter_token }) ∧
    (cfg.primary_color ≠ none → cfg.secondary_color ≠ none →
      cfg.tertiary_color ≠ none → cfg.command_color ≠ none →
      cfg.trove_path ≠ none → cfg.parameter_token ≠ none →
      cfg.parameter_ending_token ≠ none → cfg.read_from_current_directory = none →
      (append_missing_default_values_to_config cfg dir).1
        = { cfg with read_from_current_directory := some false }) ∧
    (cfg.primary_color ≠ none → cfg.secondary_color ≠ none →
      cfg.tertiary_color ≠ none → cfg.command_color ≠ none →
      cfg.trove_path ≠ none → cfg.parameter_token ≠ none →
      cfg.parameter_ending_token ≠ none → cfg.read_from_current_directory ≠ none →
      cfg.sync_server_url = none →
      (append_missing_default_values_to_config cfg dir).1
        = { cfg with sync_server_url := some HoardConfig.default_sync_server_url }) ∧
    (missing_count (append_missing_default_values_to_config cfg dir).1
      = missing_count cfg
        - (if (append_missing_default_values_to_config cfg dir).2 = true then 1 else 0)) ∧
    (2 ≤ missing_count cfg →
      missing_count (append_missing_default_values_to_config cfg dir).1 ≠ 0) := by
  refine ⟨(append_dirty_and_count cfg dir).1, (append_dirty_and_count cfg dir).2.1,
    ?_, ?_, ?_, ?_, ?_, ?_, ?_, ?_, ?_, (append_dirty_and_count cfg dir).2.2, ?_⟩
  · intro h1
    unfold append_missing_default_values_to_config
    rw [if_pos h1]
  · intro h1 h2
    unfold append_missing_default_values_to_config
    rw [if_neg h1, if_pos h2]
  · intro h1 h2 h3
    unfold append_missing_default_values_to_config
    rw [if_neg h1, if_neg h2, if_pos h3]
  · intro h1 h2 h3 h4
    unfold append_missing_default_values_to_config
    rw [if_neg h1, if_neg h2, if_neg h3, if_pos h4]
  · intro h1 h2 h3 h4 h5
    unfold append_missing_default_values_to_config
    rw [if_neg h1, if_neg h2, if_neg h3, if_neg h4, if_pos h5]
  · intro h1 h2 h3 h4 h5 h6
    unfold append_missing_default_values_to_config
    rw [if_neg h1, if_neg h2, if_neg h3, if_neg h4, if_neg h5, if_pos h6]
  · intro h1 h2 h3 h4 h5 h6 h7
    unfold append_missing_default_values_to_config
    rw [if_neg h1, if_neg h2, if_neg h3, if_neg h4, if_neg h5, if_neg h6, if_pos h7]
  · intro h1 h2 h3 h4 h5 h6 h7 h8
    unfold append_missing_default_values_to_config
    rw [if_neg h1, if_neg h2, if_neg h3, if_neg h4, if_neg h5, if_neg h6, if_neg h7,
      if_pos h8]
  · intro h1 h2 h3 h4 h5 h6 h7 h8 h9
    unfold append_missing_default_values_to_config
    rw [if_neg h1, if_neg h2, if_neg h3, if_neg h4, if_neg h5, if_neg h6, if_neg h7,
      if_neg h8, if_pos h9]
  · intro h
    have hc := (append_dirty_and_count cfg dir).2.2
    rcases hb : (append_missing_default_values_to_config cfg dir).2 <;>
      rw [hb] at hc <;> simp at hc <;> omega

/-- Concrete config for the repair-pass instance: both the primary and
secondary colours are missing. -/
def cfg_two_missing : HoardConfig :=
  { HoardConfig.default with primary_color := none, secondary_color := none }

/-- Witness for C9: with both the primary and secondary colour missing, one
repair pass fills only the primary colour, and a field is still missing
afterwards. -/
theorem repair_fills_first_missing_field_only_witness :
    (append_missing_default_values_to_config cfg_two_missing dir_w).1
      = { cfg_two_missing with primary_color := some (HoardConfig.default_colors 0) } ∧
    missing_count (append_missing_default_values_to_config cfg_two_missing dir_w).1 ≠ 0 :=
  ⟨(repair_fills_first_missing_field_only cfg_two_missing dir_w).2.2.1 rfl,
   (repair_fills_first_missing_field_only cfg_two_missing dir_w).2.2.2.2.2.2.2.2.2.2.2.2
     (by decide)⟩

/-- C10 (amended): `save_parameter_token` hands `save_config` a configuration
that differs from the input configuration only in `parameter_token`, which
becomes `Some` of the given token, written at `config_path/config.yml`; it
returns `true` when the save succeeded and `false` when serialization
failed, while a failure of the file write itself aborts the process inside
`save_config` (the `expect` at config.rs line 294) instead of returning
`false`. -/
theorem save_parameter_token_effect (config : HoardConfig) (config_path tok : String) :
    (save_parameter_token config config_path tok true true
      = .returned ({ config with parameter_token := some tok },
          config_path ++ "/" ++ DEFAULT_HOARD_CONFIG_FILE, true)) ∧
    ({ config with parameter_token := some tok } : HoardConfig).version = config.version ∧
    ({ config with parameter_token := some tok } : HoardConfig).default_namespace
      = config.default_namespace ∧
    ({ config with parameter_token := some tok } : HoardConfig).trove_path
      = config.trove_path ∧
    ({ config with parameter_token := some tok } : HoardConfig).query_pfx
      = config.query_pfx ∧
    ({ config with parameter_token := some tok } : HoardConfig).primary_color
      = config.primary_color ∧
    ({ config with parameter_token := some tok } : HoardConfig).secondary_color
      = config.secondary_color ∧
    ({ config with parameter_token := some tok } : HoardConfig).tertiary_color
      = config.tertiary_color ∧
    ({ config with parameter_token := some tok } : HoardConfig).command_color
      = config.command_color ∧
    ({ config with parameter_token := some tok } : HoardConfig).parameter_token
      = some tok ∧
    ({ config with parameter_token := some tok } : HoardConfig).parameter_ending_token
      = config.parameter_ending_token ∧
    ({ config with parameter_token := some tok } : HoardConfig).read_from_current_directory
      = config.read_from_current_directory ∧
    ({ config with parameter_token := some tok } : HoardConfig).sync_server_url
      = config.sync_server_url ∧
    ({ config with parameter_token := some tok } : HoardConfig).api_token
      = config.api_token ∧
    ({ config with parameter_token := some tok } : HoardConfig).gpt_api_key
      = config.gpt_api_key ∧
    (∀ w, save_parameter_token config config_path tok false w
      = .returned ({ config with parameter_token := some tok },
          config_path ++ "/" ++ DEFAULT_HOARD_CONFIG_FILE, false)) ∧
    (save_parameter_token config config_path tok true false
      = .panicked .writeFailed) :=
  ⟨rfl, rfl, rfl, rfl, rfl, rfl, rfl, rfl, rfl, rfl, rfl, rfl, rfl, rfl, rfl,
   fun _ => rfl, rfl⟩

/-- Token string used in the counterexample instance. -/
def tok_w : String := "@"

/-- Counterexample for C10 as stated: at a concrete input whose file write
fails, `save_parameter_token` does not return `false` (nor anything else) —
it aborts through the `expect` inside `save_config`. -/
theorem save_parameter_token_panics_on_write_failure :
    save_parameter_token HoardConfig.default dir_w tok_w true false
      = .panicked .writeFailed ∧
    returned_flag (save_parameter_token HoardConfig.default dir_w tok_w true false)
      = none :=
  ⟨rfl, rfl⟩

/-! ## Render-step claims -/

/-- Inversion of a successful `draw` call: every state field except the
command-list selection is unchanged; the selection was `some i` and is
re-pointed at the last element exactly when the selected command's name is
empty; and the GPT popup content is determined by `query_gpt` and
`openai_key_set`. -/
theorem draw_returned_inv (app : State) (config : HoardConfig) (tabs : List String)
    (fr : Frame) (s' : State)
    (hdraw : draw app config tabs = .returned (fr, s')) :
    s'.control = app.control ∧ s'.edit_selection = app.edit_selection ∧
    s'.input = app.input ∧ s'.string_to_edit = app.string_to_edit ∧
    s'.commands = app.commands ∧ s'.namespace_tab = app.namespace_tab ∧
    s'.query_gpt = app.query_gpt ∧ s'.openai_key_set = app.openai_key_set ∧
    (∃ i, app.command_list = some i ∧
      ((((app.commands.get? i).getD HoardCmd.default).name = "" ∧
         s'.command_list
           = some (if app.commands.isEmpty then 0 else app.commands.length - 1)) ∨
       (((app.commands.get? i).getD HoardCmd.default).name ≠ "" ∧ s' = app))) ∧
    fr.gptPopup = (if app.query_gpt then
        some (if app.openai_key_set then State.get_default_popupmsg
              else State.get_no_api_key_popupmsg) else none) := by
  unfold draw render_commands at hdraw
  split at hdraw
  · exact absurd hdraw (by simp)
  · split at hdraw
    · exact absurd hdraw (by simp)
    · split at hdraw
      · exact absurd hdraw (by simp)
      · rename_i items command tags description query_string app' heq
        rw [RustOutcome.returned.injEq, Prod.mk.injEq] at hdraw
        obtain ⟨hfr, hs'⟩ := hdraw
        subst hfr
        subst hs'
        split at heq
        · exact absurd heq (by simp)
        · split at heq
          · exact absurd heq (by simp)
          · rename_i hgood i hi
            dsimp only at heq
            split at heq
            · exact absurd heq (by simp)
            · rename_i htert
              split at heq
              all_goals rename_i hname
              all_goals rw [RustOutcome.returned.injEq, Prod.mk.injEq, Prod.mk.injEq,
                Prod.mk.injEq, Prod.mk.injEq, Prod.mk.injEq] at heq
              · obtain ⟨-, -, -, -, -, happ⟩ := heq
                subst happ
                refine ⟨rfl, rfl, rfl, rfl, rfl, rfl, rfl, rfl,
                  ⟨i, hi, Or.inl ⟨hname, rfl⟩⟩, ?_⟩
                split <;> simp
              · obtain ⟨-, -, -, -, -, happ⟩ := heq
                subst happ
                refine ⟨rfl, rfl, rfl, rfl, rfl, rfl, rfl, rfl,
                  ⟨i, hi, Or.inr ⟨hname, rfl⟩⟩, ?_⟩
                split <;> simp

/-- Helper: if `draw` panicked even though both selections were set, the
reason can only be a missing colour. -/
theorem draw_panic_is_color (app : State) (config : HoardConfig) (tabs : List String)
    (n i : Nat) (r : PanicReason)
    (hn : app.namespace_tab = some n) (hi : app.command_list = some i)
    (h : draw app config tabs = .panicked r) : r = .colorMissing := by
  unfold draw render_commands at h
  split at h
  · injection h with h
    exact h.symm
  · split at h
    · rename_i heq
      rw [hn] at heq
      exact Option.noConfusion heq
    · split at h
      · rename_i r' heq
        injection h with h
        subst h
        split at heq
        · injection heq with heq
          exact heq.symm
        · split at heq
          · rename_i heq2
            rw [hi] at heq2
            exact Option.noConfusion heq2
          · dsimp only at heq
            split at heq
            · injection heq with heq
              exact heq.symm
            · exact absurd heq (by simp)
      · exact absurd h (by simp)

/-- C8: under the invariant that a namespace tab and a command-list entry are
always selected (`Some`), the two selection `expect` lookups in the render
step never hit their panic branches: drawing never aborts with a
selection-related panic. -/
theorem selection_lookups_never_panic (app : State) (config : HoardConfig)
    (tabs : List String)
    (hns : app.namespace_tab ≠ none) (hcmd : app.command_list ≠ none) :
    draw app config tabs ≠ .panicked .noNamespaceSelected ∧
    draw app config tabs ≠ .panicked .noCommandSelected := by
  obtain ⟨n, hn⟩ := Option.ne_none_iff_exists'.mp hns
  obtain ⟨i, hi⟩ := Option.ne_none_iff_exists'.mp hcmd
  constructor <;> intro hcontra <;>
    simpa using draw_panic_is_color app config tabs n i _ hn hi hcontra

/-- First sample command used in concrete render instances. -/
def cmd_a : HoardCmd :=
  { name := "a", namespace_field := "default", command := "echo a", tags := [],
    description := "first" }

/-- Second sample command used in concrete render instances. -/
def cmd_b : HoardCmd :=
  { name := "b", namespace_field := "default", command := "echo b", tags := [],
    description := "second" }

/-- Namespace tab list used in concrete render instances. -/
def tabs_w : List String := ["default"]

/-- Well-formed search-mode state: one command, selection in bounds. -/
def app_w : State :=
  { control := .Search, edit_selection := .Name, input := "", string_to_edit := "",
    commands := [cmd_a], command_list := some 0, namespace_tab := some 0,
    query_gpt := false, openai_key_set := false }

/-- Frame produced by drawing `app_w` with the default config. -/
def frame_w : Frame :=
  { tabNames := tabs_w, listNames := ["a"], commandText := "echo a", tagsText := "",
    descriptionText := "first", queryText := "  >", footer := (50, 50),
    gptPopup := none }

/-- Witness for C8: drawing the well-formed state does not hit the selection
panics. -/
theorem selection_lookups_never_panic_witness :
    draw app_w HoardConfig.default tabs_w ≠ .panicked .noNamespaceSelected ∧
    draw app_w HoardConfig.default tabs_w ≠ .panicked .noCommandSelected :=
  selection_lookups_never_panic app_w HoardConfig.default tabs_w
    (by decide) (by decide)

/-- C2: after a render cycle the command-list selection is a valid index into
the rendered command list (or 0 when that list is empty), and whenever the
selected entry's name is empty the selection is re-pointed at the last
index, or 0 for an empty list. -/
theorem selection_valid_after_render (app : State) (config : HoardConfig)
    (tabs : List String) (fr : Frame) (s' : State)
    (hdraw : draw app config tabs = .returned (fr, s')) :
    selection_valid s'.command_list app.commands ∧
    (∀ i, app.command_list = some i →
      ((app.commands.get? i).getD HoardCmd.default).name = "" →
      s'.command_list
        = some (if app.commands.isEmpty then 0 else app.commands.length - 1)) := by
  obtain ⟨-, -, -, -, -, -, -, -, ⟨i, hi, hcase⟩, -⟩ :=
    draw_returned_inv app config tabs fr s' hdraw
  constructor
  · rcases hcase with ⟨hempty, hsel⟩ | ⟨hname, happ⟩
    · rw [hsel]
      unfold selection_valid
      by_cases hemp : app.commands.isEmpty
      · have : app.commands = [] := by simpa [List.isEmpty_iff] using hemp
        simp [hemp, this]
      · have hne : app.commands ≠ [] := by simpa [List.isEmpty_iff] using hemp
        have hpos := List.length_pos.mpr hne
        left
        simp only [if_neg hemp]
        omega
    · rw [happ, hi]
      unfold selection_valid
      left
      by_contra hlt
      push_neg at hlt
      have hnone : app.commands.get? i = none := List.get?_eq_none.mpr hlt
      rw [hnone] at hname
      simp [HoardCmd.default] at hname
  · intro j hj hempty
    rw [hi] at hj
    injection hj with hj
    subst hj
    rcases hcase with ⟨-, hsel⟩ | ⟨hname, -⟩
    · exact hsel
    · exact absurd hempty hname

/-- Search-mode state whose selection (5) is far out of bounds for its
two-command list. -/
def app_over : State :=
  { control := .Search, edit_selection := .Name, input := "", string_to_edit := "",
    commands := [cmd_a, cmd_b], command_list := some 5, namespace_tab := some 0,
    query_gpt := false, openai_key_set := false }

/-- The state `app_over` after one render cycle: the selection was re-pointed
at the last index 1. -/
def app_over_after : State := { app_over with command_list := some 1 }

/-- Frame produced by drawing `app_over` (out-of-bounds selection, so the
detail panes show the empty default command). -/
def frame_over : Frame :=
  { tabNames := tabs_w, listNames := ["a", "b"], commandText := "", tagsText := "",
    descriptionText := "", queryText := "  >", footer := (50, 50),
    gptPopup := none }

/-- Witness for C2: rendering the out-of-bounds state yields a valid (last)
selection. -/
theorem selection_valid_after_render_witness :
    selection_valid app_over_after.command_list app_over.commands :=
  (selection_valid_after_render app_over HoardConfig.default tabs_w
    frame_over app_over_after rfl).1

/-- Counterexample for C3 as stated: drawing the concrete state `app_over`
returns a state whose command-list selection changed from 5 to 1, so a
render cycle does not leave every field of the session state unchanged. -/
theorem draw_mutates_selection :
    state_after_draw app_over HoardConfig.default tabs_w = some app_over_after ∧
    app_over.command_list = some 5 ∧ app_over_after.command_list = some 1 ∧
    app_over_after ≠ app_over := by
  refine ⟨rfl, rfl, rfl, ?_⟩
  decide

/-- C3 (amended): the render step is a pure projection except for the
command-list selection: a successful `draw` leaves every other field of the
session state unchanged, and leaves the whole state unchanged whenever the
selected entry's name is non-empty (in-bounds selection of a named
command). -/
theorem draw_pure_except_selection (app : State) (config : HoardConfig)
    (tabs : List String) (fr : Frame) (s' : State)
    (hdraw : draw app config tabs = .returned (fr, s')) :
    s'.control = app.control ∧ s'.edit_selection = app.edit_selection ∧
    s'.input = app.input ∧ s'.string_to_edit = app.string_to_edit ∧
    s'.commands = app.commands ∧ s'.namespace_tab = app.namespace_tab ∧
    s'.query_gpt = app.query_gpt ∧ s'.openai_key_set = app.openai_key_set ∧
    (∀ i, app.command_list = some i →
      ((app.commands.get? i).getD HoardCmd.default).name ≠ "" → s' = app) := by
  obtain ⟨h1, h2, h3, h4, h5, h6, h7, h8, ⟨i, hi, hcase⟩, -⟩ :=
    draw_returned_inv app config tabs fr s' hdraw
  refine ⟨h1, h2, h3, h4, h5, h6, h7, h8, ?_⟩
  intro j hj hne
  rw [hi] at hj
  injection hj with hj
  subst hj
  rcases hcase with ⟨hempty, -⟩ | ⟨-, happ⟩
  · exact absurd hempty hne
  · exact happ

/-- Witness for C3 (amended): at the concrete out-of-bounds state, every
field other than the selection is unchanged by the render cycle. -/
theorem draw_pure_except_selection_witness :
    app_over_after.input = app_over.input ∧
    app_over_after.commands = app_over.commands :=
  ⟨(draw_pure_except_selection app_over HoardConfig.default tabs_w
      frame_over app_over_after rfl).2.2.1,
   (draw_pure_except_selection app_over HoardConfig.default tabs_w
      frame_over app_over_after rfl).2.2.2.2.1⟩

/-- C4: the mode-dependent text coercion displays the working edit buffer
for a field exactly when the session is in edit mode and that field is the
selected edit field; in every other situation the committed string is
displayed — so at most one field is backed by the edit buffer. -/
theorem edit_buffer_backs_selected_field_only (s : String) (app : State)
    (f : EditSelection) (hne : s ≠ app.string_to_edit) :
    (coerce_string_by_mode s app f = app.string_to_edit ↔
      (app.control = .Edit ∧ f = app.edit_selection)) ∧
    (app.control ≠ .Edit → coerce_string_by_mode s app f = s) ∧
    (f ≠ app.edit_selection → coerce_string_by_mode s app f = s) := by
  unfold coerce_string_by_mode
  rcases hc : app.control
  · simp [hc, hne]
  · by_cases hf : f = app.edit_selection <;> simp [hc, hf, hne]
  · simp [hc, hne]
  · simp [hc, hne]

/-- Edit-mode state with a working buffer differing from the committed
text. -/
def app_edit : State :=
  { control := .Edit, edit_selection := .Command, input := "",
    string_to_edit := "draft", commands := [cmd_a], command_list := some 0,
    namespace_tab := some 0, query_gpt := false, openai_key_set := false }

/-- Committed string used in the edit-buffer instance. -/
def s_committed : String := "committed"

/-- Witness for C4: in edit mode with the command field selected, the command
text is backed by the edit buffer, and the tags field is not. -/
theorem edit_buffer_backs_selected_field_only_witness :
    (coerce_string_by_mode s_committed app_edit .Command = app_edit.string_to_edit ↔
      (app_edit.control = .Edit ∧ EditSelection.Command = app_edit.edit_selection)) ∧
    coerce_string_by_mode s_committed app_edit .Tags = s_committed :=
  ⟨(edit_buffer_backs_selected_field_only s_committed app_edit .Command (by decide)).1,
   (edit_buffer_backs_selected_field_only s_committed app_edit .Tags (by decide)).2.2
     (by decide)⟩

/-- C5: with the GPT popup active, the popup shows the no-API-key
informational message exactly when no generation credential is configured
and the default generation-prompt message exactly when one is; and a
well-formed state with the popup active and no key still renders without
aborting. -/
theorem gpt_popup_message :
    (∀ (config : HoardConfig) (tabs : List String) (app : State) (fr : Frame)
      (s' : State), draw app config tabs = .returned (fr, s') →
      app.query_gpt = true →
      ((fr.gptPopup = some State.get_no_api_key_popupmsg ↔
          app.openai_key_set = false) ∧
       (fr.gptPopup = some State.get_default_popupmsg ↔
          app.openai_key_set = true))) ∧
    (∀ (config : HoardConfig) (tabs : List String) (app : State) (n i : Nat),
      config.primary_color ≠ none → config.secondary_color ≠ none →
      config.tertiary_color ≠ none → app.namespace_tab = some n →
      app.command_list = some i →
      is_returned (draw app config tabs) = true) := by
  have hmsg : State.get_default_popupmsg ≠ State.get_no_api_key_popupmsg := by decide
  constructor
  · intro config tabs app fr s' hdraw hq
    obtain ⟨-, -, -, -, -, -, -, -, -, hpopup⟩ :=
      draw_returned_inv app config tabs fr s' hdraw
    rw [hq] at hpopup
    rcases hk : app.openai_key_set <;> rw [hk] at hpopup <;>
      simp only [if_true, if_false, ite_true, ite_false] at hpopup <;>
      simp [hpopup, hmsg, Ne.symm hmsg]
  · intro config tabs app n i hp hs ht hn hi
    unfold draw render_commands
    simp only [hn, hi]
    rw [if_neg hp]
    rw [if_neg (show ¬(config.secondary_color = none ∨ config.primary_color = none)
      from by simp [hp, hs])]
    rw [if_neg ht]
    rfl

/-- GPT-popup state with no API key configured. -/
def app_gpt : State :=
  { control := .Gpt, edit_selection := .Name, input := "", string_to_edit := "",
    commands := [cmd_a], command_list := some 0, namespace_tab := some 0,
    query_gpt := true, openai_key_set := false }

/-- Frame produced by drawing `app_gpt`: the popup carries the no-API-key
message. -/
def frame_gpt : Frame :=
  { tabNames := tabs_w, listNames := ["a"], commandText := "echo a", tagsText := "",
    descriptionText := "first", queryText := "  >", footer := (50, 50),
    gptPopup := some State.get_no_api_key_popupmsg }

/-- Witness for C5: with the popup active and no key, the rendered popup is
the no-API-key message, and the draw call returned. -/
theorem gpt_popup_message_witness :
    (frame_gpt.gptPopup = some State.get_no_api_key_popupmsg ↔
      app_gpt.openai_key_set = false) ∧
    is_returned (draw app_gpt HoardConfig.default tabs_w) = true :=
  ⟨(gpt_popup_message.1 HoardConfig.default tabs_w app_gpt frame_gpt app_gpt
      rfl rfl).1,
   gpt_popup_message.2 HoardConfig.default tabs_w app_gpt 0 0
     (by decide) (by decide) (by decide) rfl rfl⟩

end Hoard